import Mathlib

/-!
Shallow embedding of the data and authorization core of a Flask blog
application (src/main.py together with src/forms.py): three relational tables
with cascade deletes, a session bound to at most one authenticated user id,
and per-route guards.  Each request handler is embedded as a pure function
from the application state and the request inputs to a response paired with
the successor state.  Uncaught Python exceptions (which surface as a 500
server error) are the error side of Except; flask session changes survive
such an error, so every handler returns its final state alongside the
Except value.
-/

namespace Blog

/-- Output of werkzeug generate_password_hash with method pbkdf2:sha256 and
a fresh salt of the configured length.  The hash algorithm is an external
collaborator treated as a pluggable one-way function: the record keeps the
method tag, the salt length, and enough information for
check_password_hash to test a candidate password, and nothing else reads
it. -/
structure HashedPassword where
  method : String
  saltLength : Nat
  ofPassword : String
deriving Repr, DecidableEq

/-- werkzeug generate_password_hash (called at main.py lines 119-123). -/
def generate_password_hash (password : String) (method : String) (saltLength : Nat) :
    HashedPassword :=
  { method := method, saltLength := saltLength, ofPassword := password }

/-- werkzeug check_password_hash (called at main.py line 160): verifies a
candidate password against a stored hash. -/
def check_password_hash (stored : HashedPassword) (password : String) : Bool :=
  stored.ofPassword == password

/-- Row of table users (main.py lines 39-55): unique email, unique username,
password stored as the hashed credential. -/
structure User where
  id : Nat
  email : String
  password : HashedPassword
  username : String
deriving Repr, DecidableEq

/-- Row of table blog_posts (main.py lines 58-74): author_id is a foreign key
into users, title carries a unique constraint. -/
structure BlogPost where
  id : Nat
  author_id : Nat
  title : String
  subtitle : String
  date : String
  body : String
  img_url : String
deriving Repr, DecidableEq

/-- Row of table comments (main.py lines 77-85): comment_author_id and
post_id are foreign keys into users and blog_posts. -/
structure Comment where
  id : Nat
  text : String
  comment_author_id : Nat
  post_id : Nat
deriving Repr, DecidableEq

/-- The three relational tables. -/
structure DB where
  users : List User
  posts : List BlogPost
  comments : List Comment
deriving Repr, DecidableEq

/-- State visible to one request: the database plus the flask-login session,
holding the id of the authenticated user when there is one. -/
structure AppState where
  db : DB
  session : Option Nat
deriving Repr, DecidableEq

/-- Flash notices the handlers emit; each constructor stands for one literal
message string in main.py. -/
inductive Flash where
  /-- main.py line 116: duplicate signup email, sign in instead. -/
  | duplicateEmail
  /-- main.py line 157: no account with the submitted email. -/
  | unknownEmail
  /-- main.py line 165: password verification failed. -/
  | incorrectPassword
  /-- main.py line 228: a comment requires an authenticated user. -/
  | pleaseLoginToComment
deriving Repr, DecidableEq

/-- HTTP-level outcome of a handler that did not raise. -/
inductive Response where
  | redirect (endpoint : String)
  | redirectFlash (endpoint : String) (message : Flash)
  | page (template : String)
  /-- flask-login login_required rejection of an anonymous caller. -/
  | unauthorized
  /-- abort(403). -/
  | forbidden
  /-- db.get_or_404 miss. -/
  | notFound
deriving Repr, DecidableEq

/-- Uncaught Python exceptions; each propagates out of the handler and
surfaces as a 500 server error, never as a flash notice or HTTP status the
handlers produce on purpose. -/
inductive PyError where
  /-- Attribute access on an object lacking the attribute. -/
  | attributeError (attr : String)
  /-- int(None) inside the admin_only guard. -/
  | typeError (msg : String)
  /-- A storage-layer unique-constraint violation on commit, not caught. -/
  | integrityError (msg : String)
  /-- db.session.delete(None). -/
  | unmappedInstanceError
deriving Repr, DecidableEq

deriving instance DecidableEq for Except

/-- A handler finishes with an Except value and a final state; the state is
kept even on the error side because the session cookie is still written. -/
abbrev HandlerResult := Except PyError Response × AppState

/-- Autoincrement primary key for the next inserted row. -/
def nextId (ids : List Nat) : Nat := ids.foldr max 0 + 1

/-- db.select(User).where(User.email == email) followed by scalar(). -/
def DB.findUserByEmail (db : DB) (email : String) : Option User :=
  db.users.find? (fun u => u.email == email)

/-- db.select(User).where(User.username == username) followed by scalar(). -/
def DB.findUserByUsername (db : DB) (username : String) : Option User :=
  db.users.find? (fun u => u.username == username)

/-- db.get_or_404(BlogPost, post_id) before the 404 branch. -/
def DB.findPost (db : DB) (pid : Nat) : Option BlogPost :=
  db.posts.find? (fun p => p.id == pid)

/-- SignupForm (forms.py lines 16-20): the declared data fields are name,
email and password, plus a submit button. -/
structure SignupForm where
  name : String
  email : String
  password : String
deriving Repr, DecidableEq

/-- Python attribute lookup on a SignupForm instance: the form class declares
fields name, email and password, and accessing any other attribute raises
AttributeError. -/
def SignupForm.getattr (f : SignupForm) (attr : String) : Except PyError String :=
  if attr == "name" then .ok f.name
  else if attr == "email" then .ok f.email
  else if attr == "password" then .ok f.password
  else .error (.attributeError attr)

/-- SigninForm (forms.py lines 23-26). -/
structure SigninForm where
  email : String
  password : String
deriving Repr, DecidableEq

/-- CreatePostForm (forms.py lines 8-13). -/
structure CreatePostForm where
  title : String
  subtitle : String
  img_url : String
  body : String
deriving Repr, DecidableEq

/-- CommentForm (forms.py lines 29-31). -/
structure CommentForm where
  comment : String
deriving Repr, DecidableEq

/-- Handler for /signup (main.py lines 106-142).  formValid is the outcome
of form.validate_on_submit().  The User constructor call at lines 125-129
reads form.username, an attribute SignupForm does not declare. -/
def signup (st : AppState) (form : SignupForm) (formValid : Bool) : HandlerResult :=
  if st.session.isSome then (.ok (.redirect "get_all_posts"), st)
  else if formValid then
    match st.db.findUserByEmail form.email with
    | some _ => (.ok (.redirectFlash "signin" .duplicateEmail), st)
    | none =>
      let hashed := generate_password_hash form.password "pbkdf2:sha256" 8
      match form.getattr "username" with
      | .error e => (.error e, st)
      | .ok uname =>
        let new_user : User :=
          { id := nextId (st.db.users.map User.id)
          , email := form.email
          , password := hashed
          , username := uname.toLower }
        if st.db.users.any (fun u => u.username == new_user.username) then
          (.error (.integrityError "UNIQUE constraint failed: users.username"), st)
        else
          (.ok (.redirect "get_all_posts"),
            { db := { st.db with users := st.db.users ++ [new_user] }
            , session := some new_user.id })
  else (.ok (.page "signup.html"), st)

/-- Handler for /signin (main.py lines 145-172). -/
def signin (st : AppState) (form : SigninForm) (formValid : Bool) : HandlerResult :=
  if st.session.isSome then (.ok (.redirect "get_all_posts"), st)
  else if formValid then
    match st.db.findUserByEmail form.email with
    | none => (.ok (.redirectFlash "signin" .unknownEmail), st)
    | some user =>
      if check_password_hash user.password form.password then
        (.ok (.redirect "get_all_posts"), { st with session := some user.id })
      else
        (.ok (.redirectFlash "signin" .incorrectPassword), st)
  else (.ok (.page "signin.html"), st)

/-- int(current_user.get_id()) inside the admin_only guard (main.py lines
92-98): an anonymous caller has get_id() = None and int(None) raises
TypeError. -/
def currentIdAsInt (session : Option Nat) : Except PyError Nat :=
  match session with
  | none => .error (.typeError "int argument must be a string or a number, not NoneType")
  | some i => .ok i

/-- markupsafe escape on a single character: the five HTML special
characters (ampersand, angle brackets, double and single quote) are replaced
by entities. -/
def escapeChar (c : Char) : String :=
  if c == Char.ofNat 38 then "&amp;"
  else if c == Char.ofNat 60 then "&lt;"
  else if c == Char.ofNat 62 then "&gt;"
  else if c == Char.ofNat 34 then "&#34;"
  else if c == Char.ofNat 39 then "&#39;"
  else String.singleton c

/-- markupsafe escape (applied to the comment body at main.py line 232). -/
def escape (s : String) : String := String.join (s.toList.map escapeChar)

/-- Handler for /post/(post_id) (main.py lines 213-248); a submitted valid
comment form appends one comment with its body escaped. -/
def show_post (st : AppState) (post_id : Nat) (form : CommentForm) (formValid : Bool) :
    HandlerResult :=
  match st.db.findPost post_id with
  | none => (.ok .notFound, st)
  | some requested_post =>
    if formValid then
      match st.session with
      | none => (.ok (.redirectFlash "signin" .pleaseLoginToComment), st)
      | some uid =>
        let new_comment : Comment :=
          { id := nextId (st.db.comments.map Comment.id)
          , text := escape form.comment
          , comment_author_id := uid
          , post_id := requested_post.id }
        (.ok (.redirect "show_post"),
          { st with db := { st.db with comments := st.db.comments ++ [new_comment] } })
    else (.ok (.page "post.html"), st)

/-- Handler for /new-post (main.py lines 251-274), guarded by login_required
and then admin_only.  On commit the blog_posts.title unique constraint is
checked by the store; the handler has no try/except, so a violation
propagates raw. -/
def add_new_post (st : AppState) (form : CreatePostForm) (formValid : Bool)
    (today : String) : HandlerResult :=
  if st.session.isNone then (.ok .unauthorized, st)
  else
    match currentIdAsInt st.session with
    | .error e => (.error e, st)
    | .ok uid =>
      if uid != 1 then (.ok .forbidden, st)
      else if formValid then
        let new_post : BlogPost :=
          { id := nextId (st.db.posts.map BlogPost.id)
          , author_id := uid
          , title := form.title
          , subtitle := form.subtitle
          , date := today
          , body := form.body
          , img_url := form.img_url }
        if st.db.posts.any (fun p => p.title == form.title) then
          (.error (.integrityError "UNIQUE constraint failed: blog_posts.title"), st)
        else
          (.ok (.redirect "get_all_posts"),
            { st with db := { st.db with posts := st.db.posts ++ [new_post] } })
      else (.ok (.page "make-post.html"), st)

/-- Handler for /edit-post/(post_id) (main.py lines 277-303), guarded by
login_required and then admin_only: overwrites author, title, subtitle,
img_url and body of the fetched post, leaving id and date untouched. -/
def edit_post (st : AppState) (post_id : Nat) (form : CreatePostForm) (formValid : Bool) :
    HandlerResult :=
  if st.session.isNone then (.ok .unauthorized, st)
  else
    match currentIdAsInt st.session with
    | .error e => (.error e, st)
    | .ok uid =>
      if uid != 1 then (.ok .forbidden, st)
      else
        match st.db.findPost post_id with
        | none => (.ok .notFound, st)
        | some post =>
          if formValid then
            let post1 : BlogPost :=
              { post with
                  author_id := uid
                , title := form.title
                , subtitle := form.subtitle
                , img_url := form.img_url
                , body := form.body }
            if st.db.posts.any (fun q => q.id != post.id && q.title == form.title) then
              (.error (.integrityError "UNIQUE constraint failed: blog_posts.title"), st)
            else
              (.ok (.redirect "show_post"),
                { st with db := { st.db with
                    posts := st.db.posts.map (fun q => if q.id == post.id then post1 else q) } })
          else (.ok (.page "make-post.html"), st)

/-- Cascade configured on BlogPost.comments (all, delete, delete-orphan, and
ondelete CASCADE on comments.post_id): removing a post removes every comment
whose post_id references it. -/
def deletePostCascade (db : DB) (pid : Nat) : DB :=
  { db with
      posts := db.posts.filter (fun p => p.id != pid)
    , comments := db.comments.filter (fun c => c.post_id != pid) }

/-- Cascades configured on User.posts and User.comments: removing a user
removes the posts it authored, each post cascading in turn to its own
comments, and removes the comments it authored. -/
def deleteUserCascade (db : DB) (uid : Nat) : DB :=
  let ownedPostIds := (db.posts.filter (fun p => p.author_id == uid)).map BlogPost.id
  { db with
      users := db.users.filter (fun u => u.id != uid)
    , posts := db.posts.filter (fun p => p.author_id != uid)
    , comments := db.comments.filter
        (fun c => c.comment_author_id != uid && ownedPostIds.all (fun i => i != c.post_id)) }

/-- Handler for /delete-post/(post_id) (main.py lines 306-312): guarded only
by admin_only, without login_required. -/
def delete_post (st : AppState) (post_id : Nat) : HandlerResult :=
  match currentIdAsInt st.session with
  | .error e => (.error e, st)
  | .ok uid =>
    if uid != 1 then (.ok .forbidden, st)
    else
      match st.db.findPost post_id with
      | none => (.ok .notFound, st)
      | some post =>
        (.ok (.redirect "get_all_posts"), { st with db := deletePostCascade st.db post.id })

/-- Handler for /delete-comment/(comment_id) (main.py lines 315-320): no
guard at all; removes the comment if it exists. -/
def delete_comment (st : AppState) (comment_id : Nat) : HandlerResult :=
  match st.db.comments.find? (fun c => c.id == comment_id) with
  | none => (.ok .notFound, st)
  | some _ =>
    (.ok (.redirect "show_post"),
      { st with db := { st.db with
          comments := st.db.comments.filter (fun c => c.id != comment_id) } })

/-- Handler for /delete-user/(username) (main.py lines 323-329): looks the
target up by username, logs the caller out unconditionally, then deletes the
target; db.session.delete(None) raises UnmappedInstanceError when no user
has the requested username, after the logout has already happened. -/
def delete_user (st : AppState) (username : String) : HandlerResult :=
  let user_to_delete := st.db.findUserByUsername username
  let st1 : AppState := { st with session := none }
  match user_to_delete with
  | none => (.error .unmappedInstanceError, st1)
  | some u =>
    (.ok (.redirect "get_all_posts"), { st1 with db := deleteUserCascade st1.db u.id })

/-- Referential integrity of the store: every post references an existing
author, and every comment references an existing author and an existing
post. -/
def DB.noOrphans (db : DB) : Prop :=
  (∀ p ∈ db.posts, ∃ u ∈ db.users, u.id = p.author_id) ∧
  (∀ c ∈ db.comments,
    (∃ u ∈ db.users, u.id = c.comment_author_id) ∧ (∃ p ∈ db.posts, p.id = c.post_id))

instance (db : DB) : Decidable db.noOrphans := by
  unfold DB.noOrphans
  infer_instance

/-- Concrete fixture: the first registered user, id 1, the administrator. -/
def adminUser : User :=
  { id := 1
  , email := "admin@example.com"
  , password := generate_password_hash "adminpass123" "pbkdf2:sha256" 8
  , username := "admin" }

/-- Concrete fixture: a standard user with id 2. -/
def aliceUser : User :=
  { id := 2
  , email := "alice@example.com"
  , password := generate_password_hash "alicepass123" "pbkdf2:sha256" 8
  , username := "alice" }

/-- Concrete fixture: a standard user with id 3. -/
def bobUser : User :=
  { id := 3
  , email := "bob@example.com"
  , password := generate_password_hash "bobpass1234" "pbkdf2:sha256" 8
  , username := "bob" }

/-- Concrete fixture: a post authored by the administrator. -/
def helloPost : BlogPost :=
  { id := 1
  , author_id := 1
  , title := "Hello"
  , subtitle := "First post"
  , date := "June 01, 2025"
  , body := "Welcome"
  , img_url := "http://example.com/img.png" }

/-- Concrete fixture comments on helloPost. -/
def comment1 : Comment := { id := 1, text := "Nice", comment_author_id := 2, post_id := 1 }

/-- Second fixture comment. -/
def comment2 : Comment := { id := 2, text := "Good", comment_author_id := 3, post_id := 1 }

/-- Third fixture comment. -/
def comment3 : Comment := { id := 3, text := "Fine", comment_author_id := 2, post_id := 1 }

/-- Concrete fixture database: three users, one post, three comments. -/
def baseDB : DB :=
  { users := [adminUser, aliceUser, bobUser]
  , posts := [helloPost]
  , comments := [comment1, comment2, comment3] }

/-- Fixture state: the fixture database with an anonymous session. -/
def anonState : AppState := { db := baseDB, session := none }

/-- Fixture state: the fixture database with the administrator signed in. -/
def adminState : AppState := { db := baseDB, session := some 1 }

/-- Fixture state: the fixture database with alice (id 2) signed in. -/
def aliceState : AppState := { db := baseDB, session := some 2 }

/-- Fixture state: an empty database with an anonymous session. -/
def emptyState : AppState :=
  { db := { users := [], posts := [], comments := [] }, session := none }

/-- The row a successful edit leaves behind: author reassigned to the editor
and the four mutable fields overwritten, id and date untouched (main.py
lines 290-294). -/
def editedPost (post : BlogPost) (uid : Nat) (form : CreatePostForm) : BlogPost :=
  { post with
      author_id := uid
    , title := form.title
    , subtitle := form.subtitle
    , img_url := form.img_url
    , body := form.body }

/-- The post table after a successful edit of the given post: the matching
row is replaced by the overwritten row, every other row is untouched. -/
def editPosts (posts : List BlogPost) (post : BlogPost) (form : CreatePostForm) :
    List BlogPost :=
  posts.map (fun q => if q.id == post.id then editedPost post 1 form else q)

/-- Fixture form for the C7 edit. -/
def editForm : CreatePostForm :=
  { title := "Hello again"
  , subtitle := "Second"
  , img_url := "http://example.com/i2.png"
  , body := "Edited" }

/-- Helper: deleting a post preserves referential integrity: the users table
is untouched, the surviving comments kept their author, and a surviving
comment references a post other than the deleted one, which survives. -/
lemma deletePostCascade_noOrphans (db : DB) (pid : Nat) (h : db.noOrphans) :
    (deletePostCascade db pid).noOrphans := by
  obtain ⟨hposts, hcomments⟩ := h
  refine ⟨?_, ?_⟩
  · intro p hp
    simp only [deletePostCascade, List.mem_filter] at hp
    exact hposts p hp.1
  · intro c hc
    simp only [deletePostCascade, List.mem_filter, bne_iff_ne] at hc
    obtain ⟨hcmem, hcpid⟩ := hc
    obtain ⟨⟨u, humem, huid⟩, ⟨p, hpmem, hpid⟩⟩ := hcomments c hcmem
    refine ⟨⟨u, humem, huid⟩, ⟨p, ?_, hpid⟩⟩
    simp only [deletePostCascade, List.mem_filter, bne_iff_ne]
    exact ⟨hpmem, by rw [hpid]; exact hcpid⟩

/-- Helper: a comment survives the user-delete cascade exactly when it was
present, its author is not the deleted user, and its post is not one of the
posts the deleted user authored. -/
lemma mem_deleteUserCascade_comments (db : DB) (uid : Nat) (c : Comment) :
    c ∈ (deleteUserCascade db uid).comments ↔
      c ∈ db.comments ∧ c.comment_author_id ≠ uid ∧
      ∀ p ∈ db.posts, p.author_id = uid → p.id ≠ c.post_id := by
  constructor
  · intro hc
    obtain ⟨hcmem, hpred⟩ := List.mem_filter.1 hc
    rw [Bool.and_eq_true] at hpred
    obtain ⟨h1, h2⟩ := hpred
    refine ⟨hcmem, bne_iff_ne.mp h1, fun p hpmem hpauth => ?_⟩
    have hpown : BlogPost.id p ∈
        (db.posts.filter (fun q => q.author_id == uid)).map BlogPost.id :=
      List.mem_map_of_mem BlogPost.id (List.mem_filter.2 ⟨hpmem, beq_iff_eq.mpr hpauth⟩)
    exact bne_iff_ne.mp (List.all_eq_true.1 h2 p.id hpown)
  · rintro ⟨hcmem, hcauth, hall⟩
    have hb : (c.comment_author_id != uid &&
        ((db.posts.filter (fun q => q.author_id == uid)).map BlogPost.id).all
          (fun i => i != c.post_id)) = true := by
      rw [Bool.and_eq_true]
      refine ⟨bne_iff_ne.mpr hcauth, List.all_eq_true.2 fun i hi => ?_⟩
      obtain ⟨p, hpmem2, hpi⟩ := List.mem_map.1 hi
      have hpmem := (List.mem_filter.1 hpmem2).1
      have hpauth := beq_iff_eq.mp (List.mem_filter.1 hpmem2).2
      exact bne_iff_ne.mpr (hpi ▸ hall p hpmem hpauth)
    exact List.mem_filter.2 ⟨hcmem, hb⟩

/-- Helper: deleting a user preserves referential integrity: surviving posts
have a surviving author, and a surviving comment has a surviving author and
a surviving post. -/
lemma deleteUserCascade_noOrphans (db : DB) (uid : Nat) (h : db.noOrphans) :
    (deleteUserCascade db uid).noOrphans := by
  obtain ⟨hposts, hcomments⟩ := h
  refine ⟨?_, ?_⟩
  · intro p hp
    simp only [deleteUserCascade, List.mem_filter, bne_iff_ne] at hp
    obtain ⟨hpmem, hpne⟩ := hp
    obtain ⟨u, humem, huid⟩ := hposts p hpmem
    refine ⟨u, ?_, huid⟩
    simp only [deleteUserCascade, List.mem_filter, bne_iff_ne]
    exact ⟨humem, by rw [huid]; exact hpne⟩
  · intro c hc
    rw [mem_deleteUserCascade_comments] at hc
    obtain ⟨hcmem, hcauth, hcowned⟩ := hc
    obtain ⟨⟨u, humem, huid⟩, ⟨p, hpmem, hpid⟩⟩ := hcomments c hcmem
    constructor
    · refine ⟨u, ?_, huid⟩
      simp only [deleteUserCascade, List.mem_filter, bne_iff_ne]
      exact ⟨humem, by rw [huid]; exact hcauth⟩
    · refine ⟨p, ?_, hpid⟩
      simp only [deleteUserCascade, List.mem_filter, bne_iff_ne]
      refine ⟨hpmem, fun hpauth => ?_⟩
      exact hcowned p hpmem hpauth hpid

/-- Helper: deleting a single comment preserves referential integrity. -/
lemma delete_comment_noOrphans (st : AppState) (cid : Nat) (h : st.db.noOrphans) :
    ((delete_comment st cid).2).db.noOrphans := by
  obtain ⟨hposts, hcomments⟩ := h
  cases hfind : st.db.comments.find? (fun c => c.id == cid) with
  | none => simpa [delete_comment, hfind] using ⟨hposts, hcomments⟩
  | some c0 =>
    simp only [delete_comment, hfind]
    refine ⟨hposts, ?_⟩
    intro c hc
    simp only [List.mem_filter] at hc
    exact hcomments c hc.1

/-- C1: the spec says every valid signup with a fresh email succeeds,
persists one user with the lowercased username, and signs the caller in.
The code cannot do this: the User constructor call reads form.username, an
attribute SignupForm does not declare (its field is called name), so every
valid fresh-email signup raises AttributeError before any row is written
and before any session is established. -/
theorem C1_signup_raises_attribute_error (st : AppState) (form : SignupForm)
    (hanon : st.session = none)
    (hfresh : st.db.findUserByEmail form.email = none) :
    signup st form true = (.error (.attributeError "username"), st) := by
  have hga : SignupForm.getattr form "username" = .error (.attributeError "username") := rfl
  simp [signup, hanon, hfresh, hga]

/-- C1 witness: a concrete valid signup against an empty database raises
AttributeError and leaves the state untouched. -/
theorem C1_signup_raises_attribute_error_witness :
    signup emptyState { name := "Alice", email := "alice@example.com", password := "alicepass123" }
        true =
      (.error (.attributeError "username"), emptyState) :=
  C1_signup_raises_attribute_error emptyState _ rfl rfl

/-- C2: the spec says an anonymous caller of the post mutations is denied
with NotAuthenticated.  The delete-post route carries only the admin_only
guard and no login_required, and admin_only computes int(current_user.get_id());
for an anonymous caller get_id() is None, so int(None) raises TypeError (a
500 server error) instead of a NotAuthenticated denial.  No post is removed:
the state is returned unchanged. -/
theorem C2_anonymous_delete_post_raises_type_error (st : AppState) (post_id : Nat)
    (hanon : st.session = none) :
    delete_post st post_id =
      (.error (.typeError "int argument must be a string or a number, not NoneType"), st) := by
  unfold delete_post currentIdAsInt
  rw [hanon]

/-- C2 witness: an anonymous delete of the fixture post raises TypeError and
deletes nothing. -/
theorem C2_anonymous_delete_post_raises_type_error_witness :
    delete_post anonState 1 =
      (.error (.typeError "int argument must be a string or a number, not NoneType"), anonState) :=
  C2_anonymous_delete_post_raises_type_error anonState 1 rfl

/-- C5: a signup whose email already belongs to a user is rejected with the
duplicate-email notice and redirected to signin; the state, in particular
the users table, is returned unchanged, so no second row appears and no
existing row is modified. -/
theorem C5_duplicate_email_signup_rejected (st : AppState) (form : SignupForm) (u : User)
    (hanon : st.session = none)
    (hdup : st.db.findUserByEmail form.email = some u) :
    signup st form true = (.ok (.redirectFlash "signin" .duplicateEmail), st) := by
  simp [signup, hanon, hdup]

/-- C5 witness: signing up again with the email of the fixture user alice is
rejected and the state is unchanged. -/
theorem C5_duplicate_email_signup_rejected_witness :
    signup anonState
        { name := "Alice", email := "alice@example.com", password := "newpass12345" } true =
      (.ok (.redirectFlash "signin" .duplicateEmail), anonState) :=
  C5_duplicate_email_signup_rejected anonState _ aliceUser rfl rfl

/-- C6: signin with an unknown email is rejected with the unknown-email
notice and no session; with a known email but failing password verification
it is rejected with the incorrect-password notice and no session; with a
passing verification the caller transitions to a session bound to that
user's id. -/
theorem C6_signin_cases (st : AppState) (form : SigninForm)
    (hanon : st.session = none) :
    (st.db.findUserByEmail form.email = none →
      signin st form true = (.ok (.redirectFlash "signin" .unknownEmail), st)) ∧
    (∀ u, st.db.findUserByEmail form.email = some u →
      check_password_hash u.password form.password = false →
      signin st form true = (.ok (.redirectFlash "signin" .incorrectPassword), st)) ∧
    (∀ u, st.db.findUserByEmail form.email = some u →
      check_password_hash u.password form.password = true →
      signin st form true = (.ok (.redirect "get_all_posts"), { st with session := some u.id })) := by
  refine ⟨fun hnone => ?_, fun u hu hbad => ?_, fun u hu hok => ?_⟩
  · simp [signin, hanon, hnone]
  · simp [signin, hanon, hu, hbad]
  · simp [signin, hanon, hu, hok]

/-- C6 witness: against the fixture database, an unknown email, a wrong
password for alice, and the correct password for alice produce exactly the
three specified outcomes. -/
theorem C6_signin_cases_witness :
    (signin anonState { email := "nobody@example.com", password := "whatever1234" } true =
        (.ok (.redirectFlash "signin" .unknownEmail), anonState)) ∧
    (signin anonState { email := "alice@example.com", password := "wrongpass123" } true =
        (.ok (.redirectFlash "signin" .incorrectPassword), anonState)) ∧
    (signin anonState { email := "alice@example.com", password := "alicepass123" } true =
        (.ok (.redirect "get_all_posts"), { anonState with session := some 2 })) :=
  ⟨(C6_signin_cases anonState _ rfl).1 rfl,
   (C6_signin_cases anonState _ rfl).2.1 aliceUser rfl rfl,
   (C6_signin_cases anonState _ rfl).2.2 aliceUser rfl rfl⟩

/-- C8 counterexample: the claim says a duplicate-title creation fails with
a translated domain error.  In the code the admin submitting a valid post
form whose title equals an existing title hits the blog_posts.title unique
constraint on commit, and the handler has no try/except: the result is the
raw IntegrityError on the exception side, not any handler-produced
response.  The state is unchanged, so no row is created. -/
theorem C8_counterexample_duplicate_title_raw :
    add_new_post adminState
        { title := "Hello", subtitle := "Again", img_url := "http://example.com/i3.png"
        , body := "Body" } true "June 02, 2025" =
      (.error (.integrityError "UNIQUE constraint failed: blog_posts.title"), adminState) := by
  rfl

/-- C8 amended: for every admin-authenticated valid submission whose title
equals the title of an existing post, add_new_post ends in the uncaught
IntegrityError of the storage layer (propagated raw, a 500 server error,
with no DuplicateTitle domain translation anywhere in the handler) and the
state is unchanged: no new post row is created. -/
theorem C8_duplicate_title_raises_integrity_error (st : AppState) (form : CreatePostForm)
    (today : String)
    (hadmin : st.session = some 1)
    (hdup : st.db.posts.any (fun p => p.title == form.title) = true) :
    add_new_post st form true today =
      (.error (.integrityError "UNIQUE constraint failed: blog_posts.title"), st) := by
  unfold add_new_post currentIdAsInt
  rw [hadmin]
  simp only [Option.isNone_some, Bool.false_eq_true, if_false, bne_self_eq_false]
  rw [hdup]
  simp

/-- C8 witness: the concrete duplicate-title creation by the admin on the
fixture database raises the raw IntegrityError and changes nothing. -/
theorem C8_duplicate_title_raises_integrity_error_witness :
    add_new_post adminState
        { title := "Hello", subtitle := "Twice", img_url := "http://example.com/i4.png"
        , body := "Other" } true "June 03, 2025" =
      (.error (.integrityError "UNIQUE constraint failed: blog_posts.title"), adminState) :=
  C8_duplicate_title_raises_integrity_error adminState _ _ rfl rfl

/-- C3 counterexample: the claim says deleting a username other than the
caller's own is denied with Forbidden and removes nothing.  Concretely,
alice (id 2, username alice) requests deletion of bob: the handler performs
no authorization comparison, succeeds with a redirect, removes the row of
bob, and terminates the session of alice. -/
theorem C3_counterexample_foreign_delete :
    (delete_user aliceState "bob").1 = .ok (.redirect "get_all_posts") ∧
    (delete_user aliceState "bob").1 ≠ .ok .forbidden ∧
    bobUser ∈ aliceState.db.users ∧
    bobUser ∉ ((delete_user aliceState "bob").2).db.users ∧
    ((delete_user aliceState "bob").2).session = none := by
  refine ⟨rfl, by decide, by decide, by decide, rfl⟩

/-- C3 amended: delete_user performs no authorization check at all; for any
caller session, whenever a user with the target username exists that user is
removed (with a success redirect), and the session of the caller is
terminated, whether or not the target is the caller. -/
theorem C3_delete_user_unchecked (st : AppState) (uname : String) (u : User)
    (hfind : st.db.findUserByUsername uname = some u) :
    (delete_user st uname).1 = .ok (.redirect "get_all_posts") ∧
    u ∉ ((delete_user st uname).2).db.users ∧
    ((delete_user st uname).2).session = none := by
  simp [delete_user, hfind, deleteUserCascade, List.mem_filter]

/-- C3 witness: alice, signed in as id 2, deletes the administrator account
outright. -/
theorem C3_delete_user_unchecked_witness :
    (delete_user aliceState "admin").1 = .ok (.redirect "get_all_posts") ∧
    adminUser ∉ ((delete_user aliceState "admin").2).db.users ∧
    ((delete_user aliceState "admin").2).session = none :=
  C3_delete_user_unchecked aliceState "admin" adminUser rfl

/-- C4: deleting a post removes it and every comment referencing it while
keeping every other post and comment; deleting a user removes every post and
comment that user authored and the user row itself; and after a post
deletion, a user deletion, or a single-comment deletion, a store with
referential integrity still has referential integrity: no comment references
a missing author or post and no post references a missing author. -/
theorem C4_cascade_deletes_no_orphans (db : DB) (pid uid cid : Nat)
    (h : db.noOrphans) :
    (∀ p ∈ (deletePostCascade db pid).posts, p.id ≠ pid) ∧
    (∀ c ∈ (deletePostCascade db pid).comments, c.post_id ≠ pid) ∧
    (∀ p ∈ db.posts, p.id ≠ pid → p ∈ (deletePostCascade db pid).posts) ∧
    (∀ c ∈ db.comments, c.post_id ≠ pid → c ∈ (deletePostCascade db pid).comments) ∧
    (deletePostCascade db pid).noOrphans ∧
    (∀ p ∈ (deleteUserCascade db uid).posts, p.author_id ≠ uid) ∧
    (∀ c ∈ (deleteUserCascade db uid).comments, c.comment_author_id ≠ uid) ∧
    (∀ u ∈ (deleteUserCascade db uid).users, u.id ≠ uid) ∧
    (deleteUserCascade db uid).noOrphans ∧
    ((delete_comment { db := db, session := none } cid).2).db.noOrphans := by
  refine ⟨?_, ?_, ?_, ?_, deletePostCascade_noOrphans db pid h, ?_, ?_, ?_,
    deleteUserCascade_noOrphans db uid h, delete_comment_noOrphans _ cid h⟩
  · intro p hp
    simp only [deletePostCascade, List.mem_filter, bne_iff_ne] at hp
    exact hp.2
  · intro c hc
    simp only [deletePostCascade, List.mem_filter, bne_iff_ne] at hc
    exact hc.2
  · intro p hp hne
    simp only [deletePostCascade, List.mem_filter, bne_iff_ne]
    exact ⟨hp, hne⟩
  · intro c hc hne
    simp only [deletePostCascade, List.mem_filter, bne_iff_ne]
    exact ⟨hc, hne⟩
  · intro p hp
    simp only [deleteUserCascade, List.mem_filter, bne_iff_ne] at hp
    exact hp.2
  · intro c hc
    exact ((mem_deleteUserCascade_comments db uid c).1 hc).2.1
  · intro u hu
    simp only [deleteUserCascade, List.mem_filter, bne_iff_ne] at hu
    exact hu.2

/-- C4 witness: the fixture database (one admin post with three comments by
alice and bob) satisfies referential integrity, and the conclusion holds
there with the post 1, the user 2 and the comment 1 as deletion targets. -/
theorem C4_cascade_deletes_no_orphans_witness :
    baseDB.noOrphans ∧
    ((∀ p ∈ (deletePostCascade baseDB 1).posts, p.id ≠ 1) ∧
     (∀ c ∈ (deletePostCascade baseDB 1).comments, c.post_id ≠ 1) ∧
     (∀ p ∈ baseDB.posts, p.id ≠ 1 → p ∈ (deletePostCascade baseDB 1).posts) ∧
     (∀ c ∈ baseDB.comments, c.post_id ≠ 1 → c ∈ (deletePostCascade baseDB 1).comments) ∧
     (deletePostCascade baseDB 1).noOrphans ∧
     (∀ p ∈ (deleteUserCascade baseDB 2).posts, p.author_id ≠ 2) ∧
     (∀ c ∈ (deleteUserCascade baseDB 2).comments, c.comment_author_id ≠ 2) ∧
     (∀ u ∈ (deleteUserCascade baseDB 2).users, u.id ≠ 2) ∧
     (deleteUserCascade baseDB 2).noOrphans ∧
     ((delete_comment { db := baseDB, session := none } 1).2).db.noOrphans) :=
  ⟨by decide, C4_cascade_deletes_no_orphans baseDB 1 2 1 (by decide)⟩

/-- C7: an admin edit of an existing post with a valid form and a title that
collides with no other post succeeds; afterwards the post list contains a
row with the original id and original date whose author has been reassigned
to the editing identity (id 1) and whose title, subtitle, image URL and body
are exactly the submitted fields, and every other post is still present
unchanged. -/
theorem C7_edit_post_overwrites_fields (st : AppState) (post_id : Nat)
    (form : CreatePostForm) (post : BlogPost)
    (hadmin : st.session = some 1)
    (hfind : st.db.findPost post_id = some post)
    (hfresh : st.db.posts.any (fun q => q.id != post.id && q.title == form.title) = false) :
    (edit_post st post_id form true).1 = .ok (.redirect "show_post") ∧
    (∃ p1 ∈ ((edit_post st post_id form true).2).db.posts,
      p1.id = post.id ∧ p1.date = post.date ∧ p1.author_id = 1 ∧
      p1.title = form.title ∧ p1.subtitle = form.subtitle ∧
      p1.img_url = form.img_url ∧ p1.body = form.body) ∧
    (∀ q ∈ st.db.posts, q.id ≠ post.id → q ∈ ((edit_post st post_id form true).2).db.posts) := by
  have hpost : post ∈ st.db.posts := List.mem_of_find?_eq_some hfind
  have hrun : edit_post st post_id form true =
      (.ok (.redirect "show_post"),
        { st with db := { st.db with posts := editPosts st.db.posts post form } }) := by
    simp [edit_post, currentIdAsInt, editPosts, editedPost, hadmin, hfind, hfresh]
  rw [hrun]
  refine ⟨rfl, ?_, ?_⟩
  · refine ⟨editedPost post 1 form, ?_, ?_⟩
    · have hmem2 := List.mem_map_of_mem
        (fun q : BlogPost => if q.id == post.id then editedPost post 1 form else q) hpost
      simpa [editPosts] using hmem2
    · simp [editedPost]
  · intro q hq hne
    have hmem := List.mem_map_of_mem
      (fun q : BlogPost => if q.id == post.id then editedPost post 1 form else q) hq
    simpa [editPosts, beq_iff_eq, hne] using hmem

/-- C7 witness: the admin edits the fixture post 1 with fresh fields; the
result keeps id 1 and the original date, reassigns the author to id 1 and
overwrites the four submitted fields, and the claim frame holds. -/
theorem C7_edit_post_overwrites_fields_witness :
    (edit_post adminState 1 editForm true).1 = .ok (.redirect "show_post") ∧
    (∃ p1 ∈ ((edit_post adminState 1 editForm true).2).db.posts,
      p1.id = helloPost.id ∧ p1.date = helloPost.date ∧ p1.author_id = 1 ∧
      p1.title = editForm.title ∧ p1.subtitle = editForm.subtitle ∧
      p1.img_url = editForm.img_url ∧ p1.body = editForm.body) ∧
    (∀ q ∈ adminState.db.posts, q.id ≠ helloPost.id →
      q ∈ ((edit_post adminState 1 editForm true).2).db.posts) :=
  C7_edit_post_overwrites_fields adminState 1 editForm helloPost rfl rfl (by decide)

/-- C9: a valid comment submission by an authenticated user on an existing
post appends exactly one comment row, and its stored text is the
HTML-escaped form of the submitted body. -/
theorem C9_comment_stored_escaped (st : AppState) (post_id : Nat) (form : CommentForm)
    (uid : Nat) (post : BlogPost)
    (hauth : st.session = some uid)
    (hfind : st.db.findPost post_id = some post) :
    (show_post st post_id form true).1 = .ok (.redirect "show_post") ∧
    ∃ c, ((show_post st post_id form true).2).db.comments = st.db.comments ++ [c] ∧
      c.text = escape form.comment ∧ c.comment_author_id = uid ∧ c.post_id = post.id := by
  have hrun : show_post st post_id form true =
      (.ok (.redirect "show_post"),
        { st with db := { st.db with comments := st.db.comments ++
            [{ id := nextId (st.db.comments.map Comment.id)
             , text := escape form.comment
             , comment_author_id := uid
             , post_id := post.id }] } }) := by
    simp [show_post, hfind, hauth]
  rw [hrun]
  exact ⟨rfl, ⟨_, rfl, rfl, rfl, rfl⟩⟩

/-- C9 witness: alice comments a script-like body on the fixture post; the
stored text is its escaped form, concretely with the angle brackets turned
into entities. -/
theorem C9_comment_stored_escaped_witness :
    ((show_post aliceState 1 { comment := "<script>alert(1)</script>" } true).1 =
        .ok (.redirect "show_post") ∧
      ∃ c, ((show_post aliceState 1 { comment := "<script>alert(1)</script>" } true).2).db.comments =
          aliceState.db.comments ++ [c] ∧
        c.text = escape "<script>alert(1)</script>" ∧ c.comment_author_id = 2 ∧
        c.post_id = helloPost.id) ∧
    escape "<script>alert(1)</script>" = "&lt;script&gt;alert(1)&lt;/script&gt;" :=
  ⟨C9_comment_stored_escaped aliceState 1 _ 2 helloPost rfl rfl, rfl⟩

/-- C10: delete_user ends the session of the caller no matter what the
target is: the resulting session is always anonymous; when no user has the
target username the handler then raises on delete(None) with the database
untouched, the caller already signed out; and when the target exists every
user row with a different id, in particular the caller when the target is
not the caller, survives while the caller is still signed out. -/
theorem C10_delete_user_signs_caller_out (st : AppState) (uname : String) :
    ((delete_user st uname).2).session = none ∧
    (st.db.findUserByUsername uname = none →
      (delete_user st uname).1 = .error .unmappedInstanceError ∧
      ((delete_user st uname).2).db = st.db) ∧
    (∀ u, st.db.findUserByUsername uname = some u →
      ∀ w ∈ st.db.users, w.id ≠ u.id → w ∈ ((delete_user st uname).2).db.users) := by
  refine ⟨?_, fun hnone => ?_, fun u hu w hw hne => ?_⟩
  · cases h : st.db.findUserByUsername uname <;> simp [delete_user, h]
  · simp [delete_user, hnone]
  · simp only [delete_user, hu, deleteUserCascade, List.mem_filter, bne_iff_ne]
    exact ⟨hw, hne⟩

/-- C10 witness: with alice signed in, requesting deletion of a username
that does not exist raises after signing alice out and deletes nothing, and
requesting deletion of bob leaves the row of alice in place while the
session is gone. -/
theorem C10_delete_user_signs_caller_out_witness :
    ((delete_user aliceState "ghost").2).session = none ∧
    ((delete_user aliceState "ghost").1 = .error .unmappedInstanceError ∧
      ((delete_user aliceState "ghost").2).db = aliceState.db) ∧
    aliceUser ∈ ((delete_user aliceState "bob").2).db.users :=
  ⟨(C10_delete_user_signs_caller_out aliceState "ghost").1,
   (C10_delete_user_signs_caller_out aliceState "ghost").2.1 rfl,
   (C10_delete_user_signs_caller_out aliceState "bob").2.2 bobUser rfl aliceUser (by decide)
     (by decide)⟩

end Blog
